import Mathlib

/-
Shallow embedding of paulstuart/dbreaker (src/breaker.go), a driver-level
circuit breaker wrapping a native SQL driver.

Modelling conventions:
- Go errors are `GoError` values carrying their message string; a Go
  `(T, error)` return is `Except GoError T` (`.ok` = nil error).
- The external collaborators (`sql.Open`, `db.Driver().Open`, the native
  connection's methods) are an explicit environment `Env` / function fields of
  `NativeConn`; the embedding is parametric in them.
- Side effects on the process (`sql.Register`, map mutation of `Breaker.dbs`)
  are explicit state passing; invocations of the native driver are recorded in
  a `List NativeCall` trace so that "the native open is never invoked" is a
  provable statement about the trace.
- The Go closure `down := func() bool { return w.down }` captures the breaker
  by reference and reads `w.down` at call time; it is embedded by passing the
  breaker state current at the moment of each proxy-method call as an explicit
  argument `w : Breaker` and reading `w.down` there.
- `map[string]*sql.DB` is an association list with exact-string-match lookup,
  inserted into only when the key is absent (as in the source).
-/

namespace Dbreaker

/-- Model of a Go `error` value: the message produced by `fmt.Errorf`. -/
structure GoError where
  msg : String
deriving DecidableEq, Repr

/-- Embeds `var ErrDown = fmt.Errorf("database is down")`. -/
def ErrDown : GoError := ⟨"database is down"⟩

/-- Embeds `var ErrContext = fmt.Errorf("context operations are not supported")`. -/
def ErrContext : GoError := ⟨"context operations are not supported"⟩

/-- Opaque model of a `driver.Stmt` returned by a native prepare. -/
structure Stmt where
  id : Nat
deriving DecidableEq, Repr

/-- Opaque model of a `driver.Tx` returned by a native begin. -/
structure Tx where
  id : Nat
deriving DecidableEq, Repr

/-- Opaque model of a `context.Context` token; the breaker forwards it verbatim. -/
structure Ctx where
  id : Nat
deriving DecidableEq, Repr

/-- Model of `driver.TxOptions` (`Isolation IsolationLevel; ReadOnly bool`). -/
structure TxOptions where
  isolation : Int
  readOnly : Bool
deriving DecidableEq, Repr

/-- Opaque model of a `*sql.DB` pool handle, the value cached in `Breaker.dbs`. -/
structure DB where
  id : Nat
deriving DecidableEq, Repr

/-- Model of a native `driver.Conn`: its methods as function fields.
`beginTx?` models the type assertion `c.(driver.ConnBeginTx)`: `none` means the
native connection does not implement `driver.ConnBeginTx`. -/
structure NativeConn where
  prepare : String → Except GoError Stmt
  close : Except GoError Unit
  begin : Except GoError Tx
  beginTx? : Option (Ctx → TxOptions → Except GoError Tx)

/-- Observable invocations of the external collaborators made by `Breaker.Open`. -/
inductive NativeCall where
  /-- an invocation of `sql.Open(driverName, dataSourceName)` creating a pool handle -/
  | sqlOpen (drv : String) (dsn : String)
  /-- an invocation of `db.Driver().Open(name)` on the pool handle `db` -/
  | connOpen (db : DB) (name : String)
deriving DecidableEq, Repr

/-- Environment of external collaborators consumed by the breaker:
`sqlOpen drv dsn` models `sql.Open(drv, dsn)`, and `driverOpen db name` models
`db.Driver().Open(name)` on the cached pool handle `db`. -/
structure Env where
  sqlOpen : String → String → Except GoError DB
  driverOpen : DB → String → Except GoError NativeConn

/-- Embeds the `Breaker` struct: the gate flag `down`, the native driver name,
and the pool-handle cache `dbs` (`map[string]*sql.DB` as an association list). -/
structure Breaker where
  down : Bool
  native : String
  dbs : List (String × DB)

/-- Embeds the `Conn` proxy struct: the wrapped native connection `c` and the
capability field `b` recorded at construction (`b, _ := c.(driver.ConnBeginTx)`).
The Go struct also declares an unused field `db *sql.DB` that `Open` never
assigns; it is omitted. The `down func() bool` closure field is embedded by
passing the current breaker state to each method. -/
structure Conn where
  c : NativeConn
  b : Option (Ctx → TxOptions → Except GoError Tx)

/-- Lookup `m[name]` in the modelled Go map (exact string match). -/
def lookupDB : List (String × DB) → String → Option DB
  | [], _ => none
  | (k, v) :: rest, n => if k = n then some v else lookupDB rest n

/-- Embeds `func (w *Breaker) Disable(off bool)`: unconditionally overwrite the flag. -/
def Breaker.Disable (w : Breaker) (off : Bool) : Breaker :=
  { w with down := off }

/-- The tail of `Breaker.Open` after the pool handle `db` is resolved:
`c, err := db.Driver().Open(name)`; on success record the capability and build
the proxy. `w` is the breaker state after any cache insert, `t` the trace so far. -/
def Breaker.openConn (env : Env) (w : Breaker) (db : DB) (name : String)
    (t : List NativeCall) : Except GoError Conn × Breaker × List NativeCall :=
  match env.driverOpen db name with
  | .error err => (.error err, w, t ++ [.connOpen db name])
  | .ok c => (.ok { c := c, b := c.beginTx? }, w, t ++ [.connOpen db name])

/-- Embeds `func (w *Breaker) Open(name string) (driver.Conn, error)`:
if down, fail with `ErrDown`; else resolve the cached pool handle (creating and
caching it via `sql.Open(w.native, name)` when absent, propagating a native
failure without caching), then open one native connection from it. -/
def Breaker.Open (env : Env) (w : Breaker) (name : String) :
    Except GoError Conn × Breaker × List NativeCall :=
  if w.down then (.error ErrDown, w, [])
  else
    match lookupDB w.dbs name with
    | some db => Breaker.openConn env w db name []
    | none =>
      match env.sqlOpen w.native name with
      | .error err => (.error err, w, [.sqlOpen w.native name])
      | .ok db =>
          Breaker.openConn env { w with dbs := (name, db) :: w.dbs } db name
            [.sqlOpen w.native name]

/-- Embeds `func (c *Conn) Prepare(query string) (driver.Stmt, error)`.
`w` is the breaker state at the moment of the call (the `c.down()` closure read). -/
def Conn.Prepare (w : Breaker) (c : Conn) (query : String) : Except GoError Stmt :=
  if w.down then .error ErrDown
  else c.c.prepare query

/-- Embeds `func (c *Conn) Close() error`: delegate unconditionally.
`w` is the breaker state at the moment of the call; the body never reads it,
as the Go body never calls `c.down()`. -/
def Conn.Close (_w : Breaker) (c : Conn) : Except GoError Unit :=
  c.c.close

/-- Embeds `func (c *Conn) Begin() (driver.Tx, error)`. -/
def Conn.Begin (w : Breaker) (c : Conn) : Except GoError Tx :=
  if w.down then .error ErrDown
  else c.c.begin

/-- Embeds `func (c *Conn) BeginTx(ctx, opts) (driver.Tx, error)`: gate check,
then capability check, then delegation forwarding `ctx` and `opts` verbatim. -/
def Conn.BeginTx (w : Breaker) (c : Conn) (ctx : Ctx) (opts : TxOptions) :
    Except GoError Tx :=
  if w.down then .error ErrDown
  else
    match c.b with
    | none => .error ErrContext
    | some b => b ctx opts

/-- Model of the host registry state `database/sql` keeps: the registered
driver names, each bound to its driver instance (here always a `Breaker`). -/
def SqlRegistry := List (String × Breaker)

/-- Embeds `sql.Drivers()`: the names present in the host registry. -/
def sqlDrivers (reg : SqlRegistry) : List String :=
  List.map Prod.fst reg

/-- Embeds `sql.Register(name, drv)`: install a driver under a name. -/
def sqlRegister (reg : SqlRegistry) (name : String) (drv : Breaker) : SqlRegistry :=
  (name, drv) :: reg

/-- The error `fmt.Errorf("driver %q is already registered", name)`. -/
def errAlreadyRegistered (name : String) : GoError :=
  ⟨"driver \"" ++ name ++ "\" is already registered"⟩

/-- Embeds `func NewDriver(name, native string) (Downer, error)`: scan
`sql.Drivers()` for `name`; on a hit fail with the registration error and do
nothing else; otherwise build a fresh `Breaker` (Go zero value `down = false`,
`dbs` an empty map), register it, and return it. -/
def NewDriver (reg : SqlRegistry) (name native : String) :
    Except GoError Breaker × SqlRegistry :=
  if name ∈ sqlDrivers reg then
    (.error (errAlreadyRegistered name), reg)
  else
    let drv : Breaker := { down := false, native := native, dbs := [] }
    (.ok drv, sqlRegister reg name drv)

/-! Concrete fixtures used by witness theorems: a pool handle, a native
connection with the `ConnBeginTx` capability, one without it, environments that
succeed or fail, and breaker states. -/

/-- Concrete native `BeginTx` implementation used by `connFull`. -/
def beginTxFull : Ctx → TxOptions → Except GoError Tx :=
  fun _ _ => .ok ⟨30⟩

/-- A native connection implementing `driver.ConnBeginTx`. -/
def connFull : NativeConn :=
  { prepare := fun _ => .ok ⟨10⟩
    close := .ok ()
    begin := .ok ⟨20⟩
    beginTx? := some beginTxFull }

/-- A native connection without the `driver.ConnBeginTx` capability. -/
def connNoCtxNative : NativeConn :=
  { prepare := fun _ => .ok ⟨11⟩
    close := .ok ()
    begin := .ok ⟨21⟩
    beginTx? := none }

/-- An environment whose native opens succeed with `connFull`. -/
def envOk : Env :=
  { sqlOpen := fun _ _ => .ok ⟨1⟩
    driverOpen := fun _ _ => .ok connFull }

/-- An environment whose native opens succeed with a capability-free connection. -/
def envNoCtx : Env :=
  { sqlOpen := fun _ _ => .ok ⟨2⟩
    driverOpen := fun _ _ => .ok connNoCtxNative }

/-- An environment whose `sql.Open` fails. -/
def envFailOpen : Env :=
  { sqlOpen := fun _ _ => .error ⟨"no such driver"⟩
    driverOpen := fun _ _ => .error ⟨"no such driver"⟩ }

/-- An enabled breaker with an empty cache. -/
def w0 : Breaker := { down := false, native := "sqlite3", dbs := [] }

/-- A disabled breaker with an empty cache. -/
def wDown : Breaker := { down := true, native := "sqlite3", dbs := [] }

/-- The breaker state after `Breaker.Open envOk w0 "test.db"`. -/
def w1 : Breaker := { down := false, native := "sqlite3", dbs := [("test.db", ⟨1⟩)] }

/-- The breaker state after `Breaker.Open envNoCtx w0 "test.db"`. -/
def w2 : Breaker := { down := false, native := "sqlite3", dbs := [("test.db", ⟨2⟩)] }

/-- The proxy produced by `Breaker.Open envOk w0 "test.db"`. -/
def proxy1 : Conn := { c := connFull, b := connFull.beginTx? }

/-- A proxy over a native connection lacking `ConnBeginTx`. -/
def proxyNoCtx : Conn := { c := connNoCtxNative, b := none }

/-- The trace of `Breaker.Open envOk w0 "test.db"`. -/
def trace1 : List NativeCall :=
  [.sqlOpen "sqlite3" "test.db", .connOpen ⟨1⟩ "test.db"]

/-- A concrete context token. -/
def ctx0 : Ctx := ⟨0⟩

/-- Concrete transaction options. -/
def opts0 : TxOptions := ⟨0, false⟩

/-- A registry already holding the name "wrapper". -/
def regA : SqlRegistry := [("wrapper", w0)]

/-! Helper lemmas about the cache, shared by several claim proofs. -/

/-- Looking up a just-inserted key finds the inserted handle. -/
theorem lookupDB_cons_self (rest : List (String × DB)) (n : String) (db : DB) :
    lookupDB ((n, db) :: rest) n = some db := by
  simp [lookupDB]

/-- A name absent from the cache (lookup `none`) is not among the cached keys. -/
theorem lookupDB_eq_none_not_mem {m : List (String × DB)} {n : String}
    (h : lookupDB m n = none) : n ∉ List.map Prod.fst m := by
  induction m with
  | nil => simp
  | cons p rest ih =>
    obtain ⟨k, v⟩ := p
    by_cases hk : k = n
    · simp [lookupDB, hk] at h
    · simp only [lookupDB, if_neg hk] at h
      simp only [List.map_cons, List.mem_cons]
      rintro (rfl | hmem)
      · exact hk rfl
      · exact ih h hmem

/-- Forward characterization: a disabled breaker fails `Open` at once,
touching neither the cache nor the native driver. -/
theorem Breaker.open_down {env : Env} {w : Breaker} {name : String}
    (hd : w.down = true) :
    Breaker.Open env w name = (.error ErrDown, w, []) := by
  simp [Breaker.Open, hd]

/-- Forward characterization: an enabled `Open` on a cached name goes straight
to the per-connection native open on the cached handle. -/
theorem Breaker.open_cached {env : Env} {w : Breaker} {name : String} {db : DB}
    (hd : w.down = false) (hc : lookupDB w.dbs name = some db) :
    Breaker.Open env w name = Breaker.openConn env w db name [] := by
  simp [Breaker.Open, hd, hc]

/-- Forward characterization: an enabled `Open` on an uncached name whose
`sql.Open` fails propagates the error and leaves the state unchanged. -/
theorem Breaker.open_fresh_fail {env : Env} {w : Breaker} {name : String}
    {e : GoError} (hd : w.down = false) (hc : lookupDB w.dbs name = none)
    (hs : env.sqlOpen w.native name = .error e) :
    Breaker.Open env w name = (.error e, w, [.sqlOpen w.native name]) := by
  simp [Breaker.Open, hd, hc, hs]

/-- Forward characterization: an enabled `Open` on an uncached name whose
`sql.Open` succeeds caches the new handle and opens a connection from it. -/
theorem Breaker.open_fresh_ok {env : Env} {w : Breaker} {name : String} {db : DB}
    (hd : w.down = false) (hc : lookupDB w.dbs name = none)
    (hs : env.sqlOpen w.native name = .ok db) :
    Breaker.Open env w name =
      Breaker.openConn env { w with dbs := (name, db) :: w.dbs } db name
        [.sqlOpen w.native name] := by
  simp [Breaker.Open, hd, hc, hs]

/-- Forward characterization: the connection-opening tail on a native failure. -/
theorem Breaker.openConn_fail {env : Env} {w : Breaker} {db : DB} {name : String}
    {t : List NativeCall} {e : GoError} (ho : env.driverOpen db name = .error e) :
    Breaker.openConn env w db name t = (.error e, w, t ++ [.connOpen db name]) := by
  simp [Breaker.openConn, ho]

/-- Forward characterization: the connection-opening tail on native success
records the `ConnBeginTx` capability in the proxy. -/
theorem Breaker.openConn_ok {env : Env} {w : Breaker} {db : DB} {name : String}
    {t : List NativeCall} {nc : NativeConn} (ho : env.driverOpen db name = .ok nc) :
    Breaker.openConn env w db name t =
      (.ok { c := nc, b := nc.beginTx? }, w, t ++ [.connOpen db name]) := by
  simp [Breaker.openConn, ho]

/-- Inversion of a successful `Breaker.Open`: the gate was enabled, some pool
handle `db` ended up cached under the name, the proxy wraps the connection the
native driver returned for `db` with its capability recorded, and the call
either reused a cached handle (state unchanged, no `sqlOpen` in the trace) or
created and cached a fresh one (exactly one `sqlOpen` in the trace). -/
theorem Breaker.open_ok_inv {env : Env} {w : Breaker} {name : String}
    {conn : Conn} {w' : Breaker} {t : List NativeCall}
    (h : Breaker.Open env w name = (.ok conn, w', t)) :
    w.down = false ∧
    ∃ (db : DB) (nc : NativeConn),
      env.driverOpen db name = .ok nc ∧
      conn = { c := nc, b := nc.beginTx? } ∧
      lookupDB w'.dbs name = some db ∧
      w'.down = w.down ∧ w'.native = w.native ∧
      ((lookupDB w.dbs name = some db ∧ w' = w ∧
          t = [NativeCall.connOpen db name]) ∨
       (lookupDB w.dbs name = none ∧ env.sqlOpen w.native name = .ok db ∧
          w' = { w with dbs := (name, db) :: w.dbs } ∧
          t = [NativeCall.sqlOpen w.native name, NativeCall.connOpen db name])) := by
  by_cases hd : w.down
  · rw [Breaker.open_down hd] at h
    simp at h
  · rw [Bool.not_eq_true] at hd
    refine ⟨hd, ?_⟩
    cases hc : lookupDB w.dbs name with
    | some db =>
      rw [Breaker.open_cached hd hc] at h
      cases ho : env.driverOpen db name with
      | error e =>
        rw [Breaker.openConn_fail ho] at h
        simp at h
      | ok nc =>
        rw [Breaker.openConn_ok ho] at h
        simp only [List.nil_append, Prod.mk.injEq, Except.ok.injEq] at h
        obtain ⟨hconn, hw, ht⟩ := h
        subst hw; subst ht
        exact ⟨db, nc, ho, hconn.symm, hc, rfl, rfl, Or.inl ⟨rfl, rfl, rfl⟩⟩
    | none =>
      cases hs : env.sqlOpen w.native name with
      | error e =>
        rw [Breaker.open_fresh_fail hd hc hs] at h
        simp at h
      | ok db =>
        rw [Breaker.open_fresh_ok hd hc hs] at h
        cases ho : env.driverOpen db name with
        | error e =>
          rw [Breaker.openConn_fail ho] at h
          simp at h
        | ok nc =>
          rw [Breaker.openConn_ok ho] at h
          simp only [List.cons_append, List.nil_append, Prod.mk.injEq,
            Except.ok.injEq] at h
          obtain ⟨hconn, hw, ht⟩ := h
          subst hw; subst ht
          exact ⟨db, nc, ho, hconn.symm, lookupDB_cons_self _ _ _, rfl, rfl,
            Or.inr ⟨rfl, rfl, rfl, rfl⟩⟩

/-- C1: every gated operation on a proxy returned by an enabled open reads the
gate flag at the moment of the call, not at proxy construction: disabling the
gate after the proxy was created makes prepare/begin/begin-with-context on
that same proxy return `ErrDown`, and re-enabling it makes prepare/begin
delegate to the native connection again without the proxy being recreated;
the proxy's capability field is the one probed from the native connection at
construction. -/
theorem gated_ops_read_gate_live (env : Env) (w : Breaker) (name : String)
    (conn : Conn) (w' : Breaker) (t : List NativeCall)
    (hopen : Breaker.Open env w name = (.ok conn, w', t))
    (q : String) (ctx : Ctx) (opts : TxOptions) :
    Conn.Prepare (w'.Disable true) conn q = .error ErrDown ∧
    Conn.Begin (w'.Disable true) conn = .error ErrDown ∧
    Conn.BeginTx (w'.Disable true) conn ctx opts = .error ErrDown ∧
    Conn.Prepare ((w'.Disable true).Disable false) conn q = conn.c.prepare q ∧
    Conn.Begin ((w'.Disable true).Disable false) conn = conn.c.begin ∧
    conn.b = conn.c.beginTx? := by
  obtain ⟨-, db, nc, -, hconn, -⟩ := Breaker.open_ok_inv hopen
  subst hconn
  exact ⟨rfl, rfl, rfl, rfl, rfl, rfl⟩

/-- Witness for C1 at a concrete enabled open. -/
theorem gated_ops_read_gate_live_witness :
    Conn.Prepare (w1.Disable true) proxy1 "q" = .error ErrDown ∧
    Conn.Begin (w1.Disable true) proxy1 = .error ErrDown ∧
    Conn.BeginTx (w1.Disable true) proxy1 ctx0 opts0 = .error ErrDown ∧
    Conn.Prepare ((w1.Disable true).Disable false) proxy1 "q" =
      proxy1.c.prepare "q" ∧
    Conn.Begin ((w1.Disable true).Disable false) proxy1 = proxy1.c.begin ∧
    proxy1.b = proxy1.c.beginTx? :=
  gated_ops_read_gate_live envOk w0 "test.db" proxy1 w1 trace1 rfl "q" ctx0 opts0

/-- C2: while the gate is disabled, `Open` fails immediately with `ErrDown`
for every name and every environment: the returned breaker state is unchanged
(the pool-handle cache is not mutated) and the trace is empty (the native
driver is never invoked). -/
theorem open_while_disabled (env : Env) (w : Breaker) (name : String)
    (h : w.down = true) :
    Breaker.Open env w name = (.error ErrDown, w, []) :=
  Breaker.open_down h

/-- Witness for C2 at a concrete disabled breaker. -/
theorem open_while_disabled_witness :
    Breaker.Open envOk wDown "test.db" = (.error ErrDown, wDown, []) :=
  open_while_disabled envOk wDown "test.db" rfl

/-- C3: two successive successful enabled opens of the same name use the same
cached pool handle: the handle cached by (or found by) the first call is found
again by the second, the second call performs no pool-creating `sqlOpen` (its
trace is exactly the per-connection open on that same handle) and leaves the
cache unchanged, the first call performed at most one `sqlOpen`, and key
uniqueness of the cache is preserved. -/
theorem pool_handle_shared (env : Env) (w : Breaker) (n : String)
    (c1 c2 : Conn) (wa wb : Breaker) (t1 t2 : List NativeCall)
    (h1 : Breaker.Open env w n = (.ok c1, wa, t1))
    (h2 : Breaker.Open env wa n = (.ok c2, wb, t2)) :
    ∃ db : DB,
      lookupDB wa.dbs n = some db ∧
      lookupDB wb.dbs n = some db ∧
      (t1 = [NativeCall.connOpen db n] ∨
        t1 = [NativeCall.sqlOpen w.native n, NativeCall.connOpen db n]) ∧
      t2 = [NativeCall.connOpen db n] ∧
      wb = wa ∧
      (List.Nodup (List.map Prod.fst w.dbs) →
        List.Nodup (List.map Prod.fst wb.dbs)) := by
  obtain ⟨hd1, db, nc, ho, hc1, hl1, -, -, hbr1⟩ := Breaker.open_ok_inv h1
  obtain ⟨-, db2, nc2, ho2, hc2, hl2, -, -, hbr2⟩ := Breaker.open_ok_inv h2
  rcases hbr2 with ⟨hlook, hw2, ht2⟩ | ⟨hlook, -, -, -⟩
  · rw [hl1] at hlook
    injection hlook with hdb
    subst hdb
    refine ⟨db, hl1, hl2, ?_, ht2, hw2, ?_⟩
    · rcases hbr1 with ⟨-, -, ht1⟩ | ⟨-, -, -, ht1⟩
      · exact Or.inl ht1
      · exact Or.inr ht1
    · intro hnd
      rcases hbr1 with ⟨-, hw1, -⟩ | ⟨hnone, -, hw1, -⟩
      · rw [hw2, hw1]
        exact hnd
      · rw [hw2, hw1]
        simp only [List.map_cons, List.nodup_cons]
        exact ⟨lookupDB_eq_none_not_mem hnone, hnd⟩
  · rw [hl1] at hlook
    simp at hlook

/-- Witness for C3: two concrete enabled opens of "test.db". -/
theorem pool_handle_shared_witness :
    ∃ db : DB,
      lookupDB w1.dbs "test.db" = some db ∧
      lookupDB w1.dbs "test.db" = some db ∧
      (trace1 = [NativeCall.connOpen db "test.db"] ∨
        trace1 = [NativeCall.sqlOpen w0.native "test.db",
          NativeCall.connOpen db "test.db"]) ∧
      [NativeCall.connOpen (⟨1⟩ : DB) "test.db"] =
        [NativeCall.connOpen db "test.db"] ∧
      w1 = w1 ∧
      (List.Nodup (List.map Prod.fst w0.dbs) →
        List.Nodup (List.map Prod.fst w1.dbs)) :=
  pool_handle_shared envOk w0 "test.db" proxy1 proxy1 w1 w1 trace1
    [NativeCall.connOpen ⟨1⟩ "test.db"] rfl rfl

/-- C4: `BeginTx` checks the gate first, then the capability recorded at
construction, then delegates to the native context-aware begin, forwarding the
caller's context and options verbatim and returning the native result or error
unchanged. -/
theorem beginTx_cases (w : Breaker) (c : Conn) (ctx : Ctx) (opts : TxOptions) :
    (w.down = true → Conn.BeginTx w c ctx opts = .error ErrDown) ∧
    (w.down = false → c.b = none →
      Conn.BeginTx w c ctx opts = .error ErrContext) ∧
    (∀ f, w.down = false → c.b = some f →
      Conn.BeginTx w c ctx opts = f ctx opts) :=
  ⟨fun hd => by simp [Conn.BeginTx, hd],
   fun hd hb => by simp [Conn.BeginTx, hd, hb],
   fun f hd hb => by simp [Conn.BeginTx, hd, hb]⟩

/-- Witness for C4: all three branches at concrete inputs. -/
theorem beginTx_cases_witness :
    Conn.BeginTx wDown proxy1 ctx0 opts0 = .error ErrDown ∧
    Conn.BeginTx w1 proxyNoCtx ctx0 opts0 = .error ErrContext ∧
    Conn.BeginTx w1 proxy1 ctx0 opts0 = beginTxFull ctx0 opts0 :=
  ⟨(beginTx_cases wDown proxy1 ctx0 opts0).1 rfl,
   (beginTx_cases w1 proxyNoCtx ctx0 opts0).2.1 rfl rfl,
   (beginTx_cases w1 proxy1 ctx0 opts0).2.2 beginTxFull rfl rfl⟩

/-- C5 counterexample: on a proxy lacking the capability, a `BeginTx` call
made while the gate is disabled returns `ErrDown`, not `ErrContext` — the
claim that `ErrContext` is returned regardless of gate state is false. -/
theorem beginTx_lacking_capability_counterexample :
    Conn.BeginTx wDown proxyNoCtx ctx0 opts0 = .error ErrDown ∧
    Conn.BeginTx wDown proxyNoCtx ctx0 opts0 ≠ .error ErrContext := by
  refine ⟨rfl, fun h => ?_⟩
  have h3 : (Except.error ErrDown : Except GoError Tx) = .error ErrContext := h
  have h2 : ErrDown = ErrContext := by injection h3
  exact absurd h2 (by decide)

/-- C5 amended: a proxy over a native connection lacking the context-aware
begin capability returns `ErrContext` from `BeginTx` whenever the gate is
enabled at the moment of the call; while the gate is disabled the same call
returns `ErrDown` instead. -/
theorem beginTx_lacking_capability (w : Breaker) (c : Conn) (ctx : Ctx)
    (opts : TxOptions) (hb : c.b = none) :
    (w.down = false → Conn.BeginTx w c ctx opts = .error ErrContext) ∧
    (w.down = true → Conn.BeginTx w c ctx opts = .error ErrDown) := by
  constructor <;> intro hd <;> simp [Conn.BeginTx, hd, hb]

/-- Witness for the amended C5 at concrete gate states. -/
theorem beginTx_lacking_capability_witness :
    Conn.BeginTx w1 proxyNoCtx ctx0 opts0 = .error ErrContext ∧
    Conn.BeginTx wDown proxyNoCtx ctx0 opts0 = .error ErrDown :=
  ⟨(beginTx_lacking_capability w1 proxyNoCtx ctx0 opts0 rfl).1 rfl,
   (beginTx_lacking_capability wDown proxyNoCtx ctx0 opts0 rfl).2 rfl⟩

/-- C6: `Close` delegates to the native close unconditionally, for every gate
state, returning the native result; it never produces `ErrDown` of its own
(it could return `ErrDown` only if the native close itself did). -/
theorem close_never_gated (w : Breaker) (c : Conn) :
    Conn.Close w c = c.c.close ∧
    (Conn.Close w c = .error ErrDown → c.c.close = .error ErrDown) :=
  ⟨rfl, fun h => h⟩

/-- Witness for C6 with the gate disabled. -/
theorem close_never_gated_witness :
    Conn.Close wDown proxy1 = proxy1.c.close ∧
    Conn.Close wDown proxy1 = .ok () :=
  ⟨(close_never_gated wDown proxy1).1, rfl⟩

/-- C7: an enabled open of an uncached name whose native `sql.Open` fails
returns that native error unchanged and leaves the breaker state — in
particular the pool-handle cache — unchanged: no entry is cached for the
failure. -/
theorem open_native_failure (env : Env) (w : Breaker) (n : String) (e : GoError)
    (hd : w.down = false) (hc : lookupDB w.dbs n = none)
    (hs : env.sqlOpen w.native n = .error e) :
    Breaker.Open env w n = (.error e, w, [.sqlOpen w.native n]) :=
  Breaker.open_fresh_fail hd hc hs

/-- Witness for C7 with a failing environment. -/
theorem open_native_failure_witness :
    Breaker.Open envFailOpen w0 "test.db" =
      (.error ⟨"no such driver"⟩, w0, [.sqlOpen "sqlite3" "test.db"]) :=
  open_native_failure envFailOpen w0 "test.db" ⟨"no such driver"⟩ rfl rfl rfl

/-- C8: `NewDriver` fails with the already-registered error exactly when the
host registry already holds the name, in that case leaving the registry
unchanged and returning no breaker; otherwise it builds a fresh breaker with
an enabled gate and an empty pool-handle cache, installs it under the name,
and returns it. -/
theorem newDriver_registration (reg : SqlRegistry) (name native : String) :
    (name ∈ sqlDrivers reg →
      NewDriver reg name native = (.error (errAlreadyRegistered name), reg)) ∧
    (name ∉ sqlDrivers reg →
      NewDriver reg name native =
        (.ok { down := false, native := native, dbs := [] },
         sqlRegister reg name { down := false, native := native, dbs := [] })) ∧
    ((NewDriver reg name native).1 = .error (errAlreadyRegistered name) ↔
      name ∈ sqlDrivers reg) := by
  refine ⟨fun h => by simp [NewDriver, h], fun h => by simp [NewDriver, h], ?_⟩
  by_cases h : name ∈ sqlDrivers reg
  · simp [NewDriver, h]
  · simp [NewDriver, h]

/-- Witness for C8: registering a colliding and a fresh name. -/
theorem newDriver_registration_witness :
    NewDriver regA "wrapper" "sqlite3" =
      (.error (errAlreadyRegistered "wrapper"), regA) ∧
    NewDriver regA "breaker" "sqlite3" =
      (.ok { down := false, native := "sqlite3", dbs := [] },
       sqlRegister regA "breaker"
         { down := false, native := "sqlite3", dbs := [] }) :=
  ⟨(newDriver_registration regA "wrapper" "sqlite3").1 (by decide),
   (newDriver_registration regA "breaker" "sqlite3").2.1 (by decide)⟩

/-- C9 counterexample: the error sentinels do not carry the messages the claim
states — `ErrDown` does not say "access is disabled" and `ErrContext` does not
say "context-based transaction begin not supported by the underlying
connection". -/
theorem err_sentinel_messages_counterexample :
    ErrDown.msg ≠ "access is disabled" ∧
    ErrContext.msg ≠
      "context-based transaction begin not supported by the underlying connection" := by
  constructor <;> decide

/-- C9 amended: the gating sentinel `ErrDown` carries the message
"database is down" and the capability sentinel `ErrContext` carries
"context operations are not supported"; these are the exact errors returned by
every gated operation while disabled and by the capability check of `BeginTx`
while enabled, respectively. -/
theorem err_sentinel_messages :
    ErrDown.msg = "database is down" ∧
    ErrContext.msg = "context operations are not supported" ∧
    (∀ (w : Breaker) (c : Conn) (q : String), w.down = true →
      Conn.Prepare w c q = .error ErrDown) ∧
    (∀ (w : Breaker) (c : Conn), w.down = true →
      Conn.Begin w c = .error ErrDown) ∧
    (∀ (w : Breaker) (c : Conn) (ctx : Ctx) (o : TxOptions), w.down = true →
      Conn.BeginTx w c ctx o = .error ErrDown) ∧
    (∀ (env : Env) (w : Breaker) (n : String), w.down = true →
      (Breaker.Open env w n).1 = .error ErrDown) ∧
    (∀ (w : Breaker) (c : Conn) (ctx : Ctx) (o : TxOptions), w.down = false →
      c.b = none → Conn.BeginTx w c ctx o = .error ErrContext) := by
  refine ⟨rfl, rfl, ?_, ?_, ?_, ?_, ?_⟩
  · intro w c q hd
    simp [Conn.Prepare, hd]
  · intro w c hd
    simp [Conn.Begin, hd]
  · intro w c ctx o hd
    simp [Conn.BeginTx, hd]
  · intro env w n hd
    rw [Breaker.open_down hd]
  · intro w c ctx o hd hb
    simp [Conn.BeginTx, hd, hb]

/-- Witness for the amended C9 at concrete calls. -/
theorem err_sentinel_messages_witness :
    Conn.Prepare wDown proxy1 "q" = .error ErrDown ∧
    Conn.BeginTx w1 proxyNoCtx ctx0 opts0 = .error ErrContext :=
  ⟨err_sentinel_messages.2.2.1 wDown proxy1 "q" rfl,
   err_sentinel_messages.2.2.2.2.2.2 w1 proxyNoCtx ctx0 opts0 rfl rfl⟩

/-- C10: an enabled open succeeds even when the native connection lacks the
context-aware begin capability — the probe records `none` in the proxy without
failing — and the non-context `Prepare` and `Begin` never produce `ErrContext`
of their own: while the gate is enabled they delegate to the native
connection; only `BeginTx` can produce `ErrContext`. -/
theorem open_without_capability (env : Env) (w : Breaker) (n : String)
    (db : DB) (nc : NativeConn) (hd : w.down = false)
    (hc : lookupDB w.dbs n = none) (hs : env.sqlOpen w.native n = .ok db)
    (ho : env.driverOpen db n = .ok nc) (hb : nc.beginTx? = none) :
    (Breaker.Open env w n).1 = .ok { c := nc, b := none } ∧
    (∀ (g : Breaker) (c : Conn) (q : String),
      Conn.Prepare g c q = .error ErrContext →
        c.c.prepare q = .error ErrContext) ∧
    (∀ (g : Breaker) (c : Conn),
      Conn.Begin g c = .error ErrContext → c.c.begin = .error ErrContext) ∧
    (∀ (g : Breaker) (c : Conn) (q : String), g.down = false →
      Conn.Prepare g c q = c.c.prepare q) ∧
    (∀ (g : Breaker) (c : Conn), g.down = false →
      Conn.Begin g c = c.c.begin) := by
  refine ⟨?_, ?_, ?_, ?_, ?_⟩
  · rw [Breaker.open_fresh_ok hd hc hs, Breaker.openConn_ok ho, hb]
  · intro g c q h
    by_cases hg : g.down
    · have h2 : (Except.error ErrDown : Except GoError Stmt) = .error ErrContext := by
        rw [← h]
        simp [Conn.Prepare, hg]
      have h3 : ErrDown = ErrContext := by injection h2
      exact absurd h3 (by decide)
    · rw [Bool.not_eq_true] at hg
      rw [← h]
      simp [Conn.Prepare, hg]
  · intro g c h
    by_cases hg : g.down
    · have h2 : (Except.error ErrDown : Except GoError Tx) = .error ErrContext := by
        rw [← h]
        simp [Conn.Begin, hg]
      have h3 : ErrDown = ErrContext := by injection h2
      exact absurd h3 (by decide)
    · rw [Bool.not_eq_true] at hg
      rw [← h]
      simp [Conn.Begin, hg]
  · intro g c q hg
    simp [Conn.Prepare, hg]
  · intro g c hg
    simp [Conn.Begin, hg]

/-- Witness for C10 with an environment yielding a capability-free connection. -/
theorem open_without_capability_witness :
    (Breaker.Open envNoCtx w0 "test.db").1 =
      .ok { c := connNoCtxNative, b := none } ∧
    Conn.Prepare w2 proxyNoCtx "q" = proxyNoCtx.c.prepare "q" ∧
    Conn.Begin w2 proxyNoCtx = proxyNoCtx.c.begin :=
  ⟨(open_without_capability envNoCtx w0 "test.db" ⟨2⟩ connNoCtxNative
      rfl rfl rfl rfl rfl).1,
   (open_without_capability envNoCtx w0 "test.db" ⟨2⟩ connNoCtxNative
      rfl rfl rfl rfl rfl).2.2.2.1 w2 proxyNoCtx "q" rfl,
   (open_without_capability envNoCtx w0 "test.db" ⟨2⟩ connNoCtxNative
      rfl rfl rfl rfl rfl).2.2.2.2 w2 proxyNoCtx rfl⟩

end Dbreaker
